import Mathlib

/-!
A shallow embedding of the SplineBase wrapper found in src/spline.cpp.

The SISL curve kernel is an external collaborator: it is modelled as a
structure of abstract functions, one per SISL entry point the wrapper
calls, each returning its outputs together with an integer status, and
all theorems below are proved for an arbitrary kernel. C++ exceptions
are modelled with Except over an error type distinguishing the three
exception classes thrown by the wrapper, and doubles are modelled as
real numbers. The SISL curve resource held by a SplineBase object is
modelled as an optional opaque resource id.
-/

noncomputable section

/-- Components of a 3-vector, mirroring double[3] and Eigen Vector3d. -/
abbrev Vec3 := ℝ × ℝ × ℝ

/-- The three exception classes thrown by spline.cpp:
std::out_of_range, std::runtime_error and std::logic_error. -/
inductive Err where
  | outOfRange
  | runtimeError
  | logicError

/-- The fields of base::geometry::SplineBase, in declaration order.
The SISLCurve pointer is an optional opaque resource id (none = null). -/
structure SplineBase where
  dimension : Int
  curve : Option Nat
  geometric_resolution : ℝ
  curve_order : Int
  start_param : ℝ
  end_param : ℝ
  has_curve_length : Bool
  curve_length : ℝ
  has_curvature_max : Bool
  curvature_max : ℝ

/-- The abstract SISL kernel: one function per SISL entry point used by
spline.cpp. Each takes the (possibly null) curve resource and the
arguments the wrapper forwards, and returns outputs plus a status. -/
structure Kernel where
  s1227 : Option Nat → ℝ → Vec3 × Int
  s2550 : Option Nat → ℝ → ℝ × Int
  s2556 : Option Nat → ℝ → ℝ × Int
  s1240 : Option Nat → ℝ → ℝ × Int
  s1953 : Option Nat → Vec3 → ℝ → List ℝ × List (ℝ × ℝ) × Int
  s1774 : Option Nat → Vec3 → ℝ → ℝ → ℝ → ℝ → ℝ × Int
  s2559 : Option Nat → ℝ → (Vec3 × Vec3 × Vec3) × Int
  s1940 : Option Nat → ℝ → Int → Option Nat × Vec3 × Int
  s1356 : List ℝ → Int → Int → ℝ → Option Nat × ℝ × Int
  s1357 : List ℝ → List ℝ → Int → Int → ℝ → Option Nat × ℝ × Int
  copyCurve : Nat → Nat

/-- The C atan2(y, x), as the argument of the complex number x + y i. -/
def atan2 (y x : ℝ) : ℝ := Complex.arg ((x : ℂ) + (y : ℂ) * Complex.I)

/-- Eigen Vector2d normalize: both components divided by the norm. -/
def normalize2 (x y : ℝ) : ℝ × ℝ :=
  (x / Real.sqrt (x ^ 2 + y ^ 2), y / Real.sqrt (x ^ 2 + y ^ 2))

/-- The angle-wrapping step of SplineBase::headingError: one 2*pi
correction when the raw difference exceeds pi in either direction. -/
def wrapAngle (err : ℝ) : ℝ :=
  if err > Real.pi then err - 2 * Real.pi
  else if err < -Real.pi then err + 2 * Real.pi
  else err

/-- The pure part of SplineBase::distanceError after the two kernel
queries: given the horizontal components of the error vector and the
curve heading, the signed norm picked by the sign of the bearing of the
(normalized) error vector minus the heading. The norm is the Eigen norm
of the z-zeroed 3-vector. -/
def signedDistance (e0 e1 hd : ℝ) : ℝ :=
  if 0 ≤ atan2 (normalize2 e0 e1).2 (normalize2 e0 e1).1 - hd
  then Real.sqrt (e0 ^ 2 + e1 ^ 2 + 0 ^ 2)
  else -Real.sqrt (e0 ^ 2 + e1 ^ 2 + 0 ^ 2)

namespace SplineBase

/-- SplineBase::getPoint: domain check, then s1227, nonzero status is
a runtime error. -/
def getPoint (K : Kernel) (s : SplineBase) (p : ℝ) : Except Err Vec3 :=
  if p < s.start_param ∨ p > s.end_param then .error .outOfRange
  else
    let r := K.s1227 s.curve p
    if r.2 ≠ 0 then .error .runtimeError else .ok r.1

/-- SplineBase::getCurvature: domain check, then s2550, nonzero status
is a runtime error. -/
def getCurvature (K : Kernel) (s : SplineBase) (p : ℝ) : Except Err ℝ :=
  if p < s.start_param ∨ p > s.end_param then .error .outOfRange
  else
    let r := K.s2550 s.curve p
    if r.2 ≠ 0 then .error .runtimeError else .ok r.1

/-- SplineBase::getVariationOfCurvature: domain check, then s2556,
nonzero status is a runtime error. -/
def getVariationOfCurvature (K : Kernel) (s : SplineBase) (p : ℝ) : Except Err ℝ :=
  if p < s.start_param ∨ p > s.end_param then .error .outOfRange
  else
    let r := K.s2556 s.curve p
    if r.2 ≠ 0 then .error .runtimeError else .ok r.1

/-- SplineBase::getCurveLength: return the cached value if the flag is
set, otherwise call s1240 at geometric_resolution tolerance, cache and
return. The result carries the value, the updated object, and how many
s1240 integrations the call performed (0 or 1). -/
def getCurveLength (K : Kernel) (s : SplineBase) : Except Err (ℝ × SplineBase × ℕ) :=
  if s.has_curve_length then .ok (s.curve_length, s, 0)
  else
    let r := K.s1240 s.curve s.geometric_resolution
    if r.2 ≠ 0 then .error .runtimeError
    else .ok (r.1, { s with has_curve_length := true, curve_length := r.1 }, 1)

/-- SplineBase::getUnitParameter: (end_param - start_param) divided by
getCurveLength(), with no check that the length is nonzero. -/
def getUnitParameter (K : Kernel) (s : SplineBase) : Except Err (ℝ × SplineBase × ℕ) :=
  match getCurveLength K s with
  | .error e => .error e
  | .ok r => .ok ((r.2.1.end_param - r.2.1.start_param) / r.1, r.2.1, r.2.2)

/-- SplineBase::interpolate: set start_param to 0, release the held
curve, fit a fresh curve with s1356 (kernel-chosen parameters) or s1357
(caller-supplied parameters), take end_param from the kernel; nonzero
status is a runtime error. The cached-length and cached-curvature
fields are not touched. -/
def interpolate (K : Kernel) (s : SplineBase) (points parameters : List ℝ) :
    Except Err SplineBase :=
  let r := if parameters.isEmpty
           then K.s1356 points s.dimension s.curve_order 0
           else K.s1357 points parameters s.dimension s.curve_order 0
  if r.2.2 ≠ 0 then .error .runtimeError
  else .ok { s with start_param := 0, curve := r.1, end_param := r.2.1 }

/-- SplineBase::findClosestPoints: s1953 global search at tolerance
geores in both senses; nonzero status is a runtime error; returns the
isolated parameters and the ambiguous-segment parameter pairs. -/
def findClosestPoints (K : Kernel) (s : SplineBase) (refp : Vec3) (geores : ℝ) :
    Except Err (List ℝ × List (ℝ × ℝ)) :=
  let r := K.s1953 s.curve refp geores
  if r.2.2 ≠ 0 then .error .runtimeError
  else .ok (r.1, r.2.1)

/-- SplineBase::findOneClosestPoint: first isolated point if any,
else the start of the first ambiguous segment, else a logic error. -/
def findOneClosestPoint (K : Kernel) (s : SplineBase) (pt : Vec3) (geores : ℝ) :
    Except Err ℝ :=
  match findClosestPoints K s pt geores with
  | .error e => .error e
  | .ok r =>
    match r.1 with
    | q :: _ => .ok q
    | [] =>
      match r.2 with
      | c :: _ => .ok c.1
      | [] => .error .logicError

/-- SplineBase::localClosestPointSearch: s1774 windowed search; only a
negative status is a runtime error, any nonnegative status returns the
parameter. -/
def localClosestPointSearch (K : Kernel) (s : SplineBase) (refp : Vec3)
    (guess pstart pend geores : ℝ) : Except Err ℝ :=
  let r := K.s1774 s.curve refp geores pstart pend guess
  if r.2 < 0 then .error .runtimeError else .ok r.1

/-- SplineBase::clear: release the held curve if any and set the
pointer to null; no other field is touched. -/
def clear (s : SplineBase) : SplineBase :=
  match s.curve with
  | none => s
  | some _ => { s with curve := none }

/-- SplineBase::simplify: fail on a null curve, call s1940, nonzero
status is a runtime error, otherwise replace the held curve by the
result and return the three per-axis maximum errors. The cached-length
and cached-curvature fields are not touched. -/
def simplify (K : Kernel) (s : SplineBase) (tolerance : ℝ) :
    Except Err (Vec3 × SplineBase) :=
  match s.curve with
  | none => .error .runtimeError
  | some c =>
    let r := K.s1940 (some c) tolerance s.curve_order
    if r.2.2 ≠ 0 then .error .runtimeError
    else .ok (r.2.1, { s with curve := r.1 })

/-- SplineBase::getFrenetFrame: calls s2559 with no domain check and
ignores the returned status; the three frame rows are returned as is. -/
def getFrenetFrame (K : Kernel) (s : SplineBase) (p : ℝ) :
    Except Err (Vec3 × Vec3 × Vec3) :=
  .ok (K.s2559 s.curve p).1

/-- SplineBase::getHeading: normalize the horizontal projection of the
Frenet tangent and return its atan2 bearing. -/
def getHeading (K : Kernel) (s : SplineBase) (p : ℝ) : Except Err ℝ :=
  match getFrenetFrame K s p with
  | .error e => .error e
  | .ok frame =>
    let xaxis := normalize2 frame.1.1 frame.1.2.1
    .ok (atan2 xaxis.2 xaxis.1)

/-- SplineBase::headingError: actual heading minus curve heading,
wrapped by a single 2*pi correction. -/
def headingError (K : Kernel) (s : SplineBase) (actHeading p : ℝ) : Except Err ℝ :=
  match getHeading K s p with
  | .error e => .error e
  | .ok hd => .ok (wrapAngle (actHeading - hd))

/-- SplineBase::distanceError: curve point at p, error vector with its
z component zeroed, signed by the bearing of the horizontal error
vector relative to the curve heading. -/
def distanceError (K : Kernel) (s : SplineBase) (pt : Vec3) (p : ℝ) : Except Err ℝ :=
  match getPoint K s p with
  | .error e => .error e
  | .ok cp =>
    match getHeading K s p with
    | .error e => .error e
    | .ok hd => .ok (signedDistance (pt.1 - cp.1) (pt.2.1 - cp.2.1) hd)

/-- SplineBase::poseError: search window of width
getUnitParameter() * _len_tol ahead of _st_para, local closest-point
search seeded at _st_para at the configured geometric resolution, then
the distance and heading errors at the matched parameter. -/
def poseError (K : Kernel) (s : SplineBase) (pt : Vec3) (actZRot st_para len_tol : ℝ) :
    Except Err (ℝ × ℝ × ℝ) :=
  match getUnitParameter K s with
  | .error e => .error e
  | .ok r =>
    let del_para := r.1 * len_tol
    match localClosestPointSearch K r.2.1 pt st_para st_para (st_para + del_para)
        r.2.1.geometric_resolution with
    | .error e => .error e
    | .ok param =>
      match distanceError K r.2.1 pt param with
      | .error e => .error e
      | .ok de =>
        match headingError K r.2.1 actZRot param with
        | .error e => .error e
        | .ok he => .ok (de, he, param)

/-- SplineBase::operator=: the self-assignment guard compares object
addresses; the comparison result is passed as sameObject. On a distinct
source every field is copied, the curve being deep-copied through the
kernel; the previously held curve of the target is not released. The
second and third components record the resource ids released and the
resource ids freshly allocated by the call. -/
def assign (K : Kernel) (sameObject : Bool) (target source : SplineBase) :
    SplineBase × List ℕ × List ℕ :=
  if sameObject then (target, [], [])
  else
    match source.curve with
    | some c => ({ source with curve := some (K.copyCurve c) }, [], [K.copyCurve c])
    | none => ({ source with curve := none }, [], [])

end SplineBase

/-- The four fields of the derived-property cache, bundled. -/
def cacheFields (s : SplineBase) : Bool × ℝ × Bool × ℝ :=
  (s.has_curve_length, s.curve_length, s.has_curvature_max, s.curvature_max)

/-- A concrete kernel with all statuses zero, used to instantiate the
theorems below on closed inputs. -/
def KZ : Kernel where
  s1227 := fun _ _ => ((0, 0, 0), 0)
  s2550 := fun _ _ => (0, 0)
  s2556 := fun _ _ => (0, 0)
  s1240 := fun _ _ => (2, 0)
  s1953 := fun _ _ _ => ([], [], 0)
  s1774 := fun _ _ _ _ _ _ => (0, 0)
  s2559 := fun _ _ => (((1, 0, 0), (0, 0, 0), (0, 0, 0)), 0)
  s1940 := fun _ _ _ => (some 1, (0, 0, 0), 0)
  s1356 := fun _ _ _ _ => (some 2, 1, 0)
  s1357 := fun _ _ _ _ _ => (some 3, 1, 0)
  copyCurve := fun n => n + 1

/-- A concrete spline object holding a curve with domain [0, 1] and an
empty derived-property cache. -/
def sW : SplineBase where
  dimension := 3
  curve := some 0
  geometric_resolution := 1
  curve_order := 3
  start_param := 0
  end_param := 1
  has_curve_length := false
  curve_length := -1
  has_curvature_max := false
  curvature_max := -1

/-- The object sW after its curve length has been computed through KZ. -/
def sWlen : SplineBase := { sW with has_curve_length := true, curve_length := 2 }

/-- A concrete spline object with both derived scalars cached, the
cached length being zero. -/
def sC : SplineBase :=
  { sW with has_curve_length := true, curve_length := 0,
            has_curvature_max := true, curvature_max := 5 }

/-- The object produced by interpolate on sW through KZ. -/
def sInterp : SplineBase := { sW with start_param := 0, curve := some 2, end_param := 1 }

/-- The object produced by simplify on sC through KZ. -/
def sSimp : SplineBase := { sC with curve := some 1 }

/-- Normalizing the components does not change the atan2 bearing: for a
nonzero vector the two components are scaled by the same positive factor,
and for the zero vector both sides are the bearing of the zero vector. -/
lemma atan2_normalize2 (x y : ℝ) :
    atan2 (normalize2 x y).2 (normalize2 x y).1 = atan2 y x := by
  unfold normalize2 atan2
  rcases eq_or_lt_of_le (Real.sqrt_nonneg (x ^ 2 + y ^ 2)) with hz | hpos
  · have h0 : x ^ 2 + y ^ 2 = 0 :=
      (Real.sqrt_eq_zero (by positivity)).mp hz.symm
    have hx : x = 0 := by nlinarith [sq_nonneg x, sq_nonneg y]
    have hy : y = 0 := by nlinarith [sq_nonneg x, sq_nonneg y]
    simp [hx, hy]
  · have hcast :
        ((x / Real.sqrt (x ^ 2 + y ^ 2) : ℝ) : ℂ)
          + ((y / Real.sqrt (x ^ 2 + y ^ 2) : ℝ) : ℂ) * Complex.I
        = (((Real.sqrt (x ^ 2 + y ^ 2))⁻¹ : ℝ) : ℂ)
          * ((x : ℂ) + (y : ℂ) * Complex.I) := by
      push_cast
      ring
    rw [hcast, Complex.arg_real_mul _ (inv_pos.mpr hpos)]

/-- The magnitude of the signed distance is the 2D norm of the
horizontal residual, whatever the sign branch taken. -/
lemma abs_signedDistance (e0 e1 hd : ℝ) :
    |signedDistance e0 e1 hd| = Real.sqrt (e0 ^ 2 + e1 ^ 2) := by
  unfold signedDistance
  have hsq : e0 ^ 2 + e1 ^ 2 + 0 ^ 2 = e0 ^ 2 + e1 ^ 2 := by ring
  split_ifs with h
  · rw [abs_of_nonneg (Real.sqrt_nonneg _), hsq]
  · rw [abs_neg, abs_of_nonneg (Real.sqrt_nonneg _), hsq]

/-- The positive branch of the signed distance. -/
lemma signedDistance_nonneg_branch (e0 e1 hd : ℝ)
    (h : 0 ≤ atan2 e1 e0 - hd) :
    signedDistance e0 e1 hd = Real.sqrt (e0 ^ 2 + e1 ^ 2) := by
  unfold signedDistance
  rw [atan2_normalize2, if_pos h]
  congr 1
  ring

/-- The negative branch of the signed distance. -/
lemma signedDistance_neg_branch (e0 e1 hd : ℝ)
    (h : atan2 e1 e0 - hd < 0) :
    signedDistance e0 e1 hd = -Real.sqrt (e0 ^ 2 + e1 ^ 2) := by
  unfold signedDistance
  rw [atan2_normalize2, if_neg (not_le.mpr h)]
  congr 2
  ring

/-- getCurveLength only ever writes the two cached-length fields. -/
lemma getCurveLength_preserves (K : Kernel) (s : SplineBase) (v : ℝ)
    (s2 : SplineBase) (n : ℕ)
    (h : SplineBase.getCurveLength K s = Except.ok (v, s2, n)) :
    s2.start_param = s.start_param ∧ s2.end_param = s.end_param ∧
    s2.curve = s.curve ∧ s2.geometric_resolution = s.geometric_resolution := by
  unfold SplineBase.getCurveLength at h
  by_cases hc : s.has_curve_length
  · simp only [if_pos hc, Except.ok.injEq, Prod.mk.injEq] at h
    obtain ⟨h1, h2, h3⟩ := h
    subst h2
    exact ⟨rfl, rfl, rfl, rfl⟩
  · simp only [if_neg hc] at h
    by_cases hr : (K.s1240 s.curve s.geometric_resolution).2 ≠ 0
    · simp only [if_pos hr] at h
      cases h
    · simp only [if_neg hr, Except.ok.injEq, Prod.mk.injEq] at h
      obtain ⟨h1, h2, h3⟩ := h
      subst h2
      exact ⟨rfl, rfl, rfl, rfl⟩

/-- Evaluating getPoint at parameter 0 on a domain [0, 1] object through
the concrete kernel. -/
lemma KZ_getPoint (s : SplineBase) (h0 : s.start_param = 0) (h1 : s.end_param = 1) :
    SplineBase.getPoint KZ s 0 = Except.ok (0, 0, 0) := by
  unfold SplineBase.getPoint
  rw [if_neg]
  · simp [KZ]
  · rw [h0, h1]
    push_neg
    norm_num

/-- Evaluating getHeading through the concrete kernel: the tangent row
is (1, 0, 0), so the heading is atan2 0 1 = 0. -/
lemma KZ_getHeading (s : SplineBase) (p : ℝ) :
    SplineBase.getHeading KZ s p = Except.ok 0 := by
  unfold SplineBase.getHeading SplineBase.getFrenetFrame
  simp only [KZ]
  norm_num [normalize2, atan2, Real.sqrt_one, Complex.arg_one]

/-- Evaluating headingError with equal headings through the concrete
kernel. -/
lemma KZ_headingError (s : SplineBase) :
    SplineBase.headingError KZ s 0 0 = Except.ok 0 := by
  unfold SplineBase.headingError
  rw [KZ_getHeading]
  have hw : wrapAngle 0 = 0 := by
    unfold wrapAngle
    rw [if_neg (not_lt.mpr Real.pi_nonneg),
      if_neg (not_lt.mpr (neg_nonpos.mpr Real.pi_nonneg))]
  simp [hw]

/-- Evaluating distanceError at a point lying on the curve through the
concrete kernel: the residual is zero, so the result is zero. -/
lemma KZ_distanceError (s : SplineBase) (h0 : s.start_param = 0) (h1 : s.end_param = 1) :
    SplineBase.distanceError KZ s (0, 0, 0) 0 = Except.ok 0 := by
  unfold SplineBase.distanceError
  rw [KZ_getPoint s h0 h1, KZ_getHeading]
  have hsd : signedDistance 0 0 0 = 0 := by
    unfold signedDistance
    rw [if_pos]
    · norm_num
    · norm_num [atan2, normalize2, Complex.arg_zero]
  simp [hsd]

/-- Evaluating getCurveLength on the cache-empty object through the
concrete kernel: one integration, value 2, flag now set. -/
lemma KZ_getCurveLength : SplineBase.getCurveLength KZ sW = Except.ok (2, sWlen, 1) := rfl

/-- Evaluating getUnitParameter on the cache-empty object through the
concrete kernel. -/
lemma KZ_getUnitParameter :
    SplineBase.getUnitParameter KZ sW = Except.ok ((1 : ℝ) / 2, sWlen, 1) := by
  unfold SplineBase.getUnitParameter
  rw [KZ_getCurveLength]
  norm_num [sWlen, sW]

/-- Claim C1, counterexample: on an object whose two derived scalars
are cached, clear releases the curve resource (the curve is replaced by
the empty state) yet both cached flags remain set, so the cached
scalars are not marked stale by every curve replacement. -/
theorem C1_counterexample :
    sC.curve = some 0 ∧ (SplineBase.clear sC).curve = none ∧
    sC.has_curve_length = true ∧ (SplineBase.clear sC).has_curve_length = true ∧
    sC.has_curvature_max = true ∧ (SplineBase.clear sC).has_curvature_max = true :=
  ⟨rfl, rfl, rfl, rfl, rfl, rfl⟩

/-- Claim C1, amended: interpolate, simplify and clear do not reset the
cached flags; each of the three leaves has_curve_length, curve_length,
has_curvature_max and curvature_max exactly as they were, so a computed
value persists (stale) across curve replacement. -/
theorem C1_amended (K : Kernel) (s : SplineBase) (points parameters : List ℝ) (tol : ℝ) :
    cacheFields (SplineBase.clear s) = cacheFields s ∧
    (∀ s2, SplineBase.interpolate K s points parameters = Except.ok s2 →
      cacheFields s2 = cacheFields s) ∧
    (∀ me s2, SplineBase.simplify K s tol = Except.ok (me, s2) →
      cacheFields s2 = cacheFields s) := by
  refine ⟨?_, ?_, ?_⟩
  · unfold SplineBase.clear
    cases hc : s.curve <;> rfl
  · intro s2 h
    unfold SplineBase.interpolate at h
    by_cases hr : (if parameters.isEmpty
        then K.s1356 points s.dimension s.curve_order 0
        else K.s1357 points parameters s.dimension s.curve_order 0).2.2 ≠ 0
    · simp only [if_pos hr] at h
      cases h
    · simp only [if_neg hr, Except.ok.injEq] at h
      subst h
      rfl
  · intro me s2 h
    unfold SplineBase.simplify at h
    cases hc : s.curve with
    | none => rw [hc] at h; cases h
    | some c =>
      rw [hc] at h
      by_cases hr : (K.s1940 (some c) tol s.curve_order).2.2 ≠ 0
      · simp only [if_pos hr] at h
        cases h
      · simp only [if_neg hr, Except.ok.injEq, Prod.mk.injEq] at h
        obtain ⟨h1, h2⟩ := h
        subst h2
        rfl

/-- Claim C1, witness: the amended statement instantiated on the
concrete kernel: clear on the fully cached object, interpolate on the
cache-empty object and simplify on the fully cached object all leave
the four cache fields untouched. -/
theorem C1_witness :
    cacheFields (SplineBase.clear sC) = cacheFields sC ∧
    cacheFields sInterp = cacheFields sW ∧
    cacheFields sSimp = cacheFields sC := by
  refine ⟨(C1_amended KZ sC [] [] 1).1, ?_, ?_⟩
  · exact (C1_amended KZ sW [0, 0, 0] [] 1).2.1 sInterp rfl
  · exact (C1_amended KZ sC [] [] 1).2.2 (0, 0, 0) sSimp rfl

/-- Claim C2, counterexample: the parameter 2 is strictly outside the
domain [0, 1] of the concrete object, yet getFrenetFrame does not fail
with the out-of-domain error; it invokes the kernel and returns its
frame. getHeading, built on it, does not fail either. -/
theorem C2_counterexample :
    (2 : ℝ) > sW.end_param ∧
    SplineBase.getFrenetFrame KZ sW 2 ≠ Except.error Err.outOfRange ∧
    SplineBase.getHeading KZ sW 2 = Except.ok 0 := by
  refine ⟨?_, ?_, KZ_getHeading sW 2⟩
  · show (2 : ℝ) > (1 : ℝ)
    norm_num
  · unfold SplineBase.getFrenetFrame
    simp

/-- Claim C2, amended: for every parameter strictly outside
[start_param, end_param], getPoint, getCurvature and
getVariationOfCurvature fail with the out-of-domain error whatever the
kernel does (the kernel is not consulted), while getFrenetFrame and
getHeading perform no domain check at all: getFrenetFrame returns the
kernel frame and getHeading returns its bearing for any parameter. -/
theorem C2_amended (K : Kernel) (s : SplineBase) (p : ℝ)
    (hout : p < s.start_param ∨ p > s.end_param) :
    SplineBase.getPoint K s p = Except.error Err.outOfRange ∧
    SplineBase.getCurvature K s p = Except.error Err.outOfRange ∧
    SplineBase.getVariationOfCurvature K s p = Except.error Err.outOfRange ∧
    SplineBase.getFrenetFrame K s p = Except.ok (K.s2559 s.curve p).1 ∧
    (∃ hd, SplineBase.getHeading K s p = Except.ok hd) := by
  refine ⟨?_, ?_, ?_, rfl, ?_⟩
  · unfold SplineBase.getPoint
    rw [if_pos hout]
  · unfold SplineBase.getCurvature
    rw [if_pos hout]
  · unfold SplineBase.getVariationOfCurvature
    rw [if_pos hout]
  · unfold SplineBase.getHeading SplineBase.getFrenetFrame
    exact ⟨_, rfl⟩

/-- Claim C2, witness: the amended statement instantiated at the
out-of-domain parameter 2 on the concrete object and kernel. -/
theorem C2_witness :
    SplineBase.getPoint KZ sW 2 = Except.error Err.outOfRange ∧
    SplineBase.getCurvature KZ sW 2 = Except.error Err.outOfRange ∧
    SplineBase.getVariationOfCurvature KZ sW 2 = Except.error Err.outOfRange ∧
    SplineBase.getFrenetFrame KZ sW 2 = Except.ok (KZ.s2559 sW.curve 2).1 ∧
    (∃ hd, SplineBase.getHeading KZ sW 2 = Except.ok hd) := by
  refine C2_amended KZ sW 2 (Or.inr ?_)
  show (2 : ℝ) > (1 : ℝ)
  norm_num

/-- Claim C3, counterexample: on an object whose cached curve length is
zero, getUnitParameter does not fail with a computation error; it
returns the unchecked quotient by zero. -/
theorem C3_counterexample :
    sC.has_curve_length = true ∧ sC.curve_length = 0 ∧
    SplineBase.getUnitParameter KZ sC =
      Except.ok ((sC.end_param - sC.start_param) / sC.curve_length, sC, 0) :=
  ⟨rfl, rfl, rfl⟩

/-- Claim C3, amended: getUnitParameter returns
(end_param - start_param) / curve_length() whenever getCurveLength
succeeds, with no zero check on the length: a zero length does not
produce a computation error, the division is performed regardless (and
yields an IEEE infinity in the C++ implementation). -/
theorem C3_amended (K : Kernel) (s : SplineBase) (len : ℝ) (s2 : SplineBase) (n : ℕ)
    (h : SplineBase.getCurveLength K s = Except.ok (len, s2, n)) :
    SplineBase.getUnitParameter K s =
      Except.ok ((s.end_param - s.start_param) / len, s2, n) := by
  obtain ⟨-, hend, -, -⟩ := getCurveLength_preserves K s len s2 n h
  have hstart := (getCurveLength_preserves K s len s2 n h).1
  unfold SplineBase.getUnitParameter
  rw [h]
  dsimp only
  rw [hstart, hend]

/-- Claim C3, witness: the amended statement instantiated on the
cache-empty object through the concrete kernel, whose arc length
integration yields 2 on the domain [0, 1]. -/
theorem C3_witness :
    SplineBase.getUnitParameter KZ sW =
      Except.ok ((sW.end_param - sW.start_param) / 2, sWlen, 1) :=
  C3_amended KZ sW 2 sWlen 1 KZ_getCurveLength

/-- Claim C4: poseError computes the forward window
[st_para, st_para + unitParameter * len_tol], runs the local
closest-point search over that window with guess st_para at the
configured geometric resolution, and returns the triple
(distance error, heading error, matched parameter) with both errors
evaluated at the matched parameter. -/
theorem C4_theorem (K : Kernel) (s : SplineBase) (pt : Vec3)
    (rot st lt u d e param : ℝ) (s1 : SplineBase) (n : ℕ) (status : Int)
    (hu : SplineBase.getUnitParameter K s = Except.ok (u, s1, n))
    (hk : K.s1774 s1.curve pt s1.geometric_resolution st (st + u * lt) st
      = (param, status))
    (hst : 0 ≤ status)
    (hd : SplineBase.distanceError K s1 pt param = Except.ok d)
    (he : SplineBase.headingError K s1 rot param = Except.ok e) :
    SplineBase.poseError K s pt rot st lt = Except.ok (d, e, param) := by
  unfold SplineBase.poseError
  rw [hu]
  dsimp only
  unfold SplineBase.localClosestPointSearch
  rw [hk]
  dsimp only
  rw [if_neg (not_lt.mpr hst)]
  dsimp only
  rw [hd]
  dsimp only
  rw [he]

/-- Claim C4, witness: the theorem instantiated on the concrete kernel
and the cache-empty object, with the actual position on the curve and
an actual heading equal to the curve heading: the pose error is
(0, 0, 0). -/
theorem C4_witness :
    SplineBase.poseError KZ sW (0, 0, 0) 0 0 1 = Except.ok (0, 0, 0) := by
  refine C4_theorem KZ sW (0, 0, 0) 0 0 1 ((1 : ℝ) / 2) 0 0 0 sWlen 1 0
    KZ_getUnitParameter rfl le_rfl ?_ ?_
  · exact KZ_distanceError sWlen rfl rfl
  · exact KZ_headingError sWlen

/-- Claim C5: headingError is the raw difference between the actual
heading and the curve heading, wrapped by at most one 2*pi correction
applied exactly when the raw difference exceeds pi or is below -pi; in
particular a raw difference in the open interval (pi, 3*pi) yields a
value strictly inside (-pi, pi]. -/
theorem C5_theorem (K : Kernel) (s : SplineBase) (a p hd : ℝ)
    (hh : SplineBase.getHeading K s p = Except.ok hd) :
    (Real.pi < a - hd →
      SplineBase.headingError K s a p = Except.ok (a - hd - 2 * Real.pi)) ∧
    (a - hd < -Real.pi →
      SplineBase.headingError K s a p = Except.ok (a - hd + 2 * Real.pi)) ∧
    (-Real.pi ≤ a - hd → a - hd ≤ Real.pi →
      SplineBase.headingError K s a p = Except.ok (a - hd)) ∧
    (Real.pi < a - hd → a - hd < 3 * Real.pi →
      ∃ r, SplineBase.headingError K s a p = Except.ok r ∧
        -Real.pi < r ∧ r ≤ Real.pi) := by
  have hbase : SplineBase.headingError K s a p = Except.ok (wrapAngle (a - hd)) := by
    unfold SplineBase.headingError
    rw [hh]
  refine ⟨?_, ?_, ?_, ?_⟩
  · intro hgt
    rw [hbase]
    unfold wrapAngle
    rw [if_pos hgt]
  · intro hlt
    rw [hbase]
    unfold wrapAngle
    rw [if_neg (not_lt.mpr (by linarith [Real.pi_pos])), if_pos hlt]
  · intro hge hle
    rw [hbase]
    unfold wrapAngle
    rw [if_neg (not_lt.mpr hle), if_neg (not_lt.mpr hge)]
  · intro hgt hlt3
    refine ⟨a - hd - 2 * Real.pi, ?_, by linarith, by linarith⟩
    rw [hbase]
    unfold wrapAngle
    rw [if_pos hgt]

/-- Claim C5, witness: with curve heading 0 (concrete kernel) and
actual heading 2*pi, the raw difference 2*pi lies in (pi, 3*pi) and the
returned error lies strictly inside (-pi, pi]. -/
theorem C5_witness :
    ∃ r, SplineBase.headingError KZ sW (2 * Real.pi) 0 = Except.ok r ∧
      -Real.pi < r ∧ r ≤ Real.pi := by
  have h4 := (C5_theorem KZ sW (2 * Real.pi) 0 0 (KZ_getHeading sW 0)).2.2.2
  exact h4 (by linarith [Real.pi_pos]) (by linarith [Real.pi_pos])

/-- Claim C6: for an in-domain parameter (witnessed by a successful
getPoint), the distance error has magnitude equal to the 2D norm of the
horizontal residual from the curve point to the actual point, is the
positive norm exactly when the bearing of the horizontal error vector
minus the curve heading is nonnegative, and is the negated norm
otherwise. -/
theorem C6_theorem (K : Kernel) (s : SplineBase) (pt : Vec3) (p : ℝ)
    (cp : Vec3) (hd : ℝ)
    (hp : SplineBase.getPoint K s p = Except.ok cp)
    (hh : SplineBase.getHeading K s p = Except.ok hd) :
    ∃ r, SplineBase.distanceError K s pt p = Except.ok r ∧
      |r| = Real.sqrt ((pt.1 - cp.1) ^ 2 + (pt.2.1 - cp.2.1) ^ 2) ∧
      (0 ≤ atan2 (pt.2.1 - cp.2.1) (pt.1 - cp.1) - hd →
        r = Real.sqrt ((pt.1 - cp.1) ^ 2 + (pt.2.1 - cp.2.1) ^ 2)) ∧
      (atan2 (pt.2.1 - cp.2.1) (pt.1 - cp.1) - hd < 0 →
        r = -Real.sqrt ((pt.1 - cp.1) ^ 2 + (pt.2.1 - cp.2.1) ^ 2)) := by
  refine ⟨signedDistance (pt.1 - cp.1) (pt.2.1 - cp.2.1) hd, ?_, ?_, ?_, ?_⟩
  · unfold SplineBase.distanceError
    rw [hp]
    dsimp only
    rw [hh]
  · exact abs_signedDistance (pt.1 - cp.1) (pt.2.1 - cp.2.1) hd
  · exact signedDistance_nonneg_branch (pt.1 - cp.1) (pt.2.1 - cp.2.1) hd
  · exact signedDistance_neg_branch (pt.1 - cp.1) (pt.2.1 - cp.2.1) hd

/-- Claim C6, witness: the theorem instantiated on the concrete kernel
at parameter 0 with the actual point on the curve. -/
theorem C6_witness :
    ∃ r, SplineBase.distanceError KZ sW (0, 0, 0) 0 = Except.ok r ∧
      |r| = Real.sqrt ((0 - 0) ^ 2 + (0 - 0) ^ 2) := by
  obtain ⟨r, h1, h2, h3, h4⟩ :=
    C6_theorem KZ sW (0, 0, 0) 0 (0, 0, 0) 0 (KZ_getPoint sW rfl rfl) (KZ_getHeading sW 0)
  exact ⟨r, h1, h2⟩

/-- Claim C7: when the global search succeeds (status 0),
findOneClosestPoint returns the first isolated parameter if any exist,
otherwise the start of the first ambiguous segment, and it fails with
the logic error exactly when the kernel returned neither isolated
points nor ambiguous segments. -/
theorem C7_theorem (K : Kernel) (s : SplineBase) (pt : Vec3) (geores : ℝ)
    (ps : List ℝ) (cs : List (ℝ × ℝ)) (st : Int)
    (hk : K.s1953 s.curve pt geores = (ps, cs, st)) :
    (∀ q rest, st = 0 → ps = q :: rest →
      SplineBase.findOneClosestPoint K s pt geores = Except.ok q) ∧
    (∀ c rest, st = 0 → ps = [] → cs = c :: rest →
      SplineBase.findOneClosestPoint K s pt geores = Except.ok c.1) ∧
    (SplineBase.findOneClosestPoint K s pt geores = Except.error Err.logicError ↔
      st = 0 ∧ ps = [] ∧ cs = []) := by
  have hfind : SplineBase.findClosestPoints K s pt geores
      = if st ≠ 0 then Except.error Err.runtimeError else Except.ok (ps, cs) := by
    unfold SplineBase.findClosestPoints
    rw [hk]
  refine ⟨?_, ?_, ?_⟩
  · intro q rest h0 hps
    subst h0
    subst hps
    unfold SplineBase.findOneClosestPoint
    rw [hfind]
    simp
  · intro c rest h0 hps hcs
    subst h0
    subst hps
    subst hcs
    unfold SplineBase.findOneClosestPoint
    rw [hfind]
    simp
  · unfold SplineBase.findOneClosestPoint
    rw [hfind]
    by_cases h0 : st = 0
    · subst h0
      simp only [ne_eq, not_true_eq_false, if_neg]
      cases ps with
      | nil =>
        cases cs with
        | nil => simp
        | cons c rest => simp
      | cons q rest => simp
    · rw [if_pos h0]
      simp [h0]

/-- Claim C7, witness: the concrete kernel returns no isolated points
and no ambiguous segments with status 0, and findOneClosestPoint fails
with the logic error. -/
theorem C7_witness :
    SplineBase.findOneClosestPoint KZ sW (0, 0, 0) 1 = Except.error Err.logicError :=
  (C7_theorem KZ sW (0, 0, 0) 1 [] [] 0 rfl).2.2.mpr ⟨rfl, rfl, rfl⟩

/-- Claim C8: the local windowed search fails with its search error
exactly when the kernel status is negative (so a positive nonzero
status still returns the parameter), whereas the global search fails
exactly when the kernel status is nonzero; the two per-operation
conventions are distinct. -/
theorem C8_theorem (K : Kernel) (s : SplineBase) (refp : Vec3)
    (guess pstart pend geores : ℝ) (rpt : Vec3) (geo2 : ℝ) :
    (SplineBase.localClosestPointSearch K s refp guess pstart pend geores
        = Except.error Err.runtimeError ↔
      (K.s1774 s.curve refp geores pstart pend guess).2 < 0) ∧
    (SplineBase.localClosestPointSearch K s refp guess pstart pend geores
        = Except.ok (K.s1774 s.curve refp geores pstart pend guess).1 ↔
      0 ≤ (K.s1774 s.curve refp geores pstart pend guess).2) ∧
    (SplineBase.findClosestPoints K s rpt geo2 = Except.error Err.runtimeError ↔
      (K.s1953 s.curve rpt geo2).2.2 ≠ 0) ∧
    (SplineBase.findClosestPoints K s rpt geo2
        = Except.ok ((K.s1953 s.curve rpt geo2).1, (K.s1953 s.curve rpt geo2).2.1) ↔
      (K.s1953 s.curve rpt geo2).2.2 = 0) := by
  unfold SplineBase.localClosestPointSearch SplineBase.findClosestPoints
  refine ⟨?_, ?_, ?_, ?_⟩
  · by_cases hlt : (K.s1774 s.curve refp geores pstart pend guess).2 < 0 <;>
      simp [hlt]
  · by_cases hlt : (K.s1774 s.curve refp geores pstart pend guess).2 < 0 <;>
      simp [hlt, not_lt.mp, le_of_not_lt]
  · by_cases hz : (K.s1953 s.curve rpt geo2).2.2 ≠ 0 <;> simp [hz]
  · by_cases hz : (K.s1953 s.curve rpt geo2).2.2 = 0 <;> simp [hz]

/-- Claim C9: getCurveLength is idempotent. With an empty cache and a
successful kernel integration, the first call performs exactly one
s1240 integration at geometric_resolution tolerance, caches the result
and returns it; with the flag set it returns the cached value unchanged
with zero integrations; and any successful call followed by a second
call returns the identical value and object with no further kernel
integration. -/
theorem C9_theorem (K : Kernel) (s : SplineBase) :
    (s.has_curve_length = true →
      SplineBase.getCurveLength K s = Except.ok (s.curve_length, s, 0)) ∧
    (s.has_curve_length = false →
      (K.s1240 s.curve s.geometric_resolution).2 = 0 →
      SplineBase.getCurveLength K s =
        Except.ok ((K.s1240 s.curve s.geometric_resolution).1,
          { s with has_curve_length := true,
                   curve_length := (K.s1240 s.curve s.geometric_resolution).1 }, 1)) ∧
    (∀ v s2 n, SplineBase.getCurveLength K s = Except.ok (v, s2, n) →
      SplineBase.getCurveLength K s2 = Except.ok (v, s2, 0)) := by
  refine ⟨?_, ?_, ?_⟩
  · intro hc
    unfold SplineBase.getCurveLength
    rw [if_pos hc]
  · intro hc hst
    unfold SplineBase.getCurveLength
    rw [if_neg (by simp [hc])]
    simp only [if_neg (by simp [hst] : ¬(K.s1240 s.curve s.geometric_resolution).2 ≠ 0)]
  · intro v s2 n h
    unfold SplineBase.getCurveLength at h
    by_cases hc : s.has_curve_length
    · rw [if_pos hc] at h
      simp only [Except.ok.injEq, Prod.mk.injEq] at h
      obtain ⟨h1, h2, h3⟩ := h
      subst h2
      unfold SplineBase.getCurveLength
      rw [if_pos hc, h1]
    · rw [if_neg hc] at h
      by_cases hr : (K.s1240 s.curve s.geometric_resolution).2 ≠ 0
      · simp only [if_pos hr] at h
        cases h
      · simp only [if_neg hr, Except.ok.injEq, Prod.mk.injEq] at h
        obtain ⟨h1, h2, h3⟩ := h
        subst h2
        unfold SplineBase.getCurveLength
        rw [if_pos rfl, h1]

/-- Claim C9, witness: on the concrete kernel and cache-empty object,
the first call integrates once and yields 2, and a second call on the
resulting object returns the identical value with zero integrations. -/
theorem C9_witness :
    SplineBase.getCurveLength KZ sW = Except.ok (2, sWlen, 1) ∧
    SplineBase.getCurveLength KZ sWlen = Except.ok (2, sWlen, 0) := by
  constructor
  · exact (C9_theorem KZ sW).2.1 rfl rfl
  · exact (C9_theorem KZ sW).2.2 2 sWlen 1 ((C9_theorem KZ sW).2.1 rfl rfl)

/-- Claim C10: self-assignment is a no-op. With the address guard
taken (sameObject), operator= returns the object with every field
unchanged, releases no curve resource and duplicates none, for any
kernel. -/
theorem C10_theorem (K : Kernel) (h : SplineBase) :
    SplineBase.assign K true h h = (h, [], []) := by
  unfold SplineBase.assign
  rw [if_pos rfl]
